import Mathlib

/-!
# Thunder_sensor: the configuration header `Thunder/config.h`

The header declares a flat table of constants.  Each constant is embedded
here under the name it has in the source:

* `const bool`            ↦ `Bool`
* `const char*`           ↦ `CStr` (`none` is the null pointer, `some s` a
                            pointer to the characters `s`)
* `const byte[]`          ↦ `List Byte`, `Byte` being an 8-bit unsigned value
* `const WiFiCredential[]` ↦ `List WiFiCredential`
* `sizeof` and the conversion to `int` are computed from the size of a data
  pointer and the width of `int` on the target, which the header does not
  fix and which are therefore parameters.

The second part embeds the *declared types* of the same constants (where
`const` stands in each declaration) together with the C++ rule deciding
which expressions may stand on the left of an assignment.
-/

namespace Thunder

/-! ## Values -/

/-- A value of type `const char*`: `none` is the null pointer, `some s` points
at the characters of the literal `s`. -/
abbrev CStr := Option String

/-- The Arduino type `byte`: an unsigned 8-bit value. -/
abbrev Byte := Fin 256

/-- `const bool DEBUG = true;` -/
def DEBUG : Bool := true

/-- `struct WiFiCredential { const char* ssid; const char* password; };` -/
structure WiFiCredential where
  ssid : CStr
  password : CStr
deriving DecidableEq, Repr

/-- `const WiFiCredential wifiCredentials[] = { {"-----", "-----"}, {"-----", "-----"},
{"-----", "-----"} };` -/
def wifiCredentials : List WiFiCredential :=
  [ { ssid := some "-----", password := some "-----" },
    { ssid := some "-----", password := some "-----" },
    { ssid := some "-----", password := some "-----" } ]

/-- `sizeof(WiFiCredential)`: two data pointers of `ptrBytes` bytes each; both members
have the same size and alignment, so the structure has no padding. -/
def sizeofWiFiCredential (ptrBytes : Nat) : Nat := ptrBytes + ptrBytes

/-- `sizeof` of an array of `n` elements of `elemBytes` bytes each. -/
def sizeofArray (elemBytes n : Nat) : Nat := n * elemBytes

/-- `sizeof(wifiCredentials)`. -/
def sizeofWifiCredentials (ptrBytes : Nat) : Nat :=
  sizeofArray (sizeofWiFiCredential ptrBytes) wifiCredentials.length

/-- Conversion of an unsigned value to a two's-complement `int` of `bits` bits. -/
def toInt (bits x : Nat) : Int :=
  let m := x % 2 ^ bits
  if m < 2 ^ (bits - 1) then (m : Int) else (m : Int) - (2 ^ bits : Nat)

/-- `const int numWifiCredentials = sizeof(wifiCredentials) / sizeof(wifiCredentials[0]);`
on a target whose data pointers have `ptrBytes` bytes and whose `int` has `intBits` bits. -/
def numWifiCredentials (ptrBytes intBits : Nat) : Int :=
  toInt intBits (sizeofWifiCredentials ptrBytes / sizeofWiFiCredential ptrBytes)

/-- `const char* NTP_SERVER = "ntp.nict.jp";` -/
def NTP_SERVER : CStr := some "ntp.nict.jp"

/-- `const char* MAC_DESKTOP = "00:00:00:00:00:00";` -/
def MAC_DESKTOP : CStr := some "00:00:00:00:00:00"

/-- `const char* MAC_SERVER  = "00:00:00:00:00:00";` -/
def MAC_SERVER : CStr := some "00:00:00:00:00:00"

/-- `const bool USE_STATIC_IP = false;` -/
def USE_STATIC_IP : Bool := false

/-- `const byte STATIC_IP_BYTES[] = {0, 0, 0, 0};` -/
def STATIC_IP_BYTES : List Byte := [0, 0, 0, 0]

/-- `const byte GATEWAY_BYTES[]   = {0, 0, 0, 0};` -/
def GATEWAY_BYTES : List Byte := [0, 0, 0, 0]

/-- `const byte SUBNET_BYTES[]    = {0, 0, 0, 0};` -/
def SUBNET_BYTES : List Byte := [0, 0, 0, 0]

/-- `const byte PRIMARY_DNS_BYTES[]     = {0, 0, 0, 0};` -/
def PRIMARY_DNS_BYTES : List Byte := [0, 0, 0, 0]

/-- `const byte SECONDARY_DNS_BYTES[]     = {0, 0, 0, 0};` -/
def SECONDARY_DNS_BYTES : List Byte := [0, 0, 0, 0]

/-- `const char* GAS_URL = "-----";` -/
def GAS_URL : CStr := some "-----"

/-- `const char* GAS_URL_WOL = "-----";` -/
def GAS_URL_WOL : CStr := some "-----"

/-- `const char* SWITCHBOT_TOKEN = "-----";` -/
def SWITCHBOT_TOKEN : CStr := some "-----"

/-- `const char* SWITCHBOT_SECRET = "-----";` -/
def SWITCHBOT_SECRET : CStr := some "-----"

/-- `const char* DEVICE_ID_LIGHT = "-----";` -/
def DEVICE_ID_LIGHT : CStr := some "-----"

/-- `const char* DEVICE_ID_TV = "-----";` -/
def DEVICE_ID_TV : CStr := some "-----"

/-- `const char* DEVICE_ID_AC = "-----";` -/
def DEVICE_ID_AC : CStr := some "-----"

/-- `const char* DEVICE_ID_FAN = "-----";` -/
def DEVICE_ID_FAN : CStr := some "-----"

/-- `const char* DEVICE_ID_SPEAKER = "-----";` -/
def DEVICE_ID_SPEAKER : CStr := some "-----"

/-- `const char* DEVICE_ID_OTHERS = "-----";` -/
def DEVICE_ID_OTHERS : CStr := some "-----"

/-- `const char* LINE_CHANNEL_ACCESS_TOKEN = "-----";` -/
def LINE_CHANNEL_ACCESS_TOKEN : CStr := some "-----"

/-- `const char* LINE_USER_ID = "-----";` -/
def LINE_USER_ID : CStr := some "-----"

/-! ## Collections of the declared constants -/

/-- The credential, token, ID and URL strings of the three external services. -/
def serviceStrings : List CStr :=
  [GAS_URL, GAS_URL_WOL, SWITCHBOT_TOKEN, SWITCHBOT_SECRET, DEVICE_ID_LIGHT, DEVICE_ID_TV,
   DEVICE_ID_AC, DEVICE_ID_FAN, DEVICE_ID_SPEAKER, DEVICE_ID_OTHERS,
   LINE_CHANNEL_ACCESS_TOKEN, LINE_USER_ID]

/-! ## Predicates used to state the properties -/

/-- The unset address `0.0.0.0`. -/
def zeroAddress : List Byte := [0, 0, 0, 0]

/-- A hexadecimal digit, in either case. -/
def isHexDigit (c : Char) : Bool :=
  ('0' ≤ c && c ≤ '9') || ('a' ≤ c && c ≤ 'f') || ('A' ≤ c && c ≤ 'F')

/-- The characters form `k` groups of two hexadecimal digits, consecutive groups being
separated by exactly one colon. -/
def hexGroups : Nat → List Char → Bool
  | 0, _ => false
  | 1, [a, b] => isHexDigit a && isHexDigit b
  | k + 2, a :: b :: c :: rest =>
      isHexDigit a && isHexDigit b && c == ':' && hexGroups (k + 1) rest
  | _, _ => false

/-- The documented textual form of a MAC address, `"00:1A:2B:3C:4D:5E"`: a non-null
string of exactly 17 characters, six groups of two hexadecimal digits separated by single
colons. -/
def isMacText : CStr → Bool
  | none => false
  | some s => s.length == 17 && hexGroups 6 s.toList

/-! ## Declared types

The second embedding records, for every name the header declares, the type
written in its declaration, and the C++ rule for the type of an lvalue
expression built from such a name. -/

/-- The names declared at file scope, in declaration order. -/
inductive Ident
  | DEBUG
  | wifiCredentials
  | numWifiCredentials
  | NTP_SERVER
  | MAC_DESKTOP
  | MAC_SERVER
  | USE_STATIC_IP
  | STATIC_IP_BYTES
  | GATEWAY_BYTES
  | SUBNET_BYTES
  | PRIMARY_DNS_BYTES
  | SECONDARY_DNS_BYTES
  | GAS_URL
  | GAS_URL_WOL
  | SWITCHBOT_TOKEN
  | SWITCHBOT_SECRET
  | DEVICE_ID_LIGHT
  | DEVICE_ID_TV
  | DEVICE_ID_AC
  | DEVICE_ID_FAN
  | DEVICE_ID_SPEAKER
  | DEVICE_ID_OTHERS
  | LINE_CHANNEL_ACCESS_TOKEN
  | LINE_USER_ID
deriving DecidableEq, Repr

/-- The members of `struct WiFiCredential`. -/
inductive Member
  | ssid
  | password
deriving DecidableEq, Repr

/-- The unqualified object types the header uses. -/
inductive Base
  | bool
  | int
  | byte
  | char
  | WiFiCredential
deriving DecidableEq, Repr

/-- A C++ object type with its cv-qualification: `isConst` is the `const` that applies to
the object itself (for a pointer, the `const` written after the `*`); an array is as
qualified as its elements. -/
inductive CType
  | base (isConst : Bool) (b : Base)
  | ptr (isConst : Bool) (pointee : CType)
  | arr (elem : CType) (n : Nat)
deriving DecidableEq, Repr

/-- The type `const char*`: a pointer, itself not `const`, to `const char`. -/
def constCharPtr : CType := CType.ptr false (CType.base true Base.char)

/-- The type written in the declaration of each name.  `T x[] = {...}` takes its bound
from the number of initialisers. -/
def declaredType : Ident → CType
  | .DEBUG => CType.base true Base.bool
  | .wifiCredentials => CType.arr (CType.base true Base.WiFiCredential) 3
  | .numWifiCredentials => CType.base true Base.int
  | .NTP_SERVER => constCharPtr
  | .MAC_DESKTOP => constCharPtr
  | .MAC_SERVER => constCharPtr
  | .USE_STATIC_IP => CType.base true Base.bool
  | .STATIC_IP_BYTES => CType.arr (CType.base true Base.byte) 4
  | .GATEWAY_BYTES => CType.arr (CType.base true Base.byte) 4
  | .SUBNET_BYTES => CType.arr (CType.base true Base.byte) 4
  | .PRIMARY_DNS_BYTES => CType.arr (CType.base true Base.byte) 4
  | .SECONDARY_DNS_BYTES => CType.arr (CType.base true Base.byte) 4
  | .GAS_URL => constCharPtr
  | .GAS_URL_WOL => constCharPtr
  | .SWITCHBOT_TOKEN => constCharPtr
  | .SWITCHBOT_SECRET => constCharPtr
  | .DEVICE_ID_LIGHT => constCharPtr
  | .DEVICE_ID_TV => constCharPtr
  | .DEVICE_ID_AC => constCharPtr
  | .DEVICE_ID_FAN => constCharPtr
  | .DEVICE_ID_SPEAKER => constCharPtr
  | .DEVICE_ID_OTHERS => constCharPtr
  | .LINE_CHANNEL_ACCESS_TOKEN => constCharPtr
  | .LINE_USER_ID => constCharPtr

/-- The type written for each member of `struct WiFiCredential`. -/
def memberType : Member → CType
  | .ssid => constCharPtr
  | .password => constCharPtr

/-- Whether an object of the type is `const`. -/
def CType.isConst : CType → Bool
  | .base c _ => c
  | .ptr c _ => c
  | .arr e _ => e.isConst

/-- Whether the type is an array type. -/
def CType.isArray : CType → Bool
  | .arr _ _ => true
  | _ => false

/-- The type with `const` added when `c` holds: a member of a `const` object is itself
`const`. -/
def CType.withConst (c : Bool) : CType → CType
  | .base k b => .base (k || c) b
  | .ptr k t => .ptr (k || c) t
  | .arr e n => .arr (e.withConst c) n

/-- The cast-free lvalue expressions over the declared names: `x`, `a[i]`, `s.m` and
`*p`.  Expressions that go through a cast (`const_cast`, a C-style cast) are outside this
grammar. -/
inductive Lval
  | var (x : Ident)
  | index (a : Lval) (i : Nat)
  | member (s : Lval) (m : Member)
  | deref (p : Lval)
deriving DecidableEq, Repr

/-- The static type of an lvalue expression, `none` when the expression is ill-typed (a
subscript or `*` applied to a scalar, a member of something that is not the structure).
The type of `a[i]` does not depend on the value of `i`. -/
def typeOf : Lval → Option CType
  | .var x => some (declaredType x)
  | .index a _ =>
      match typeOf a with
      | some (.arr e _) => some e
      | some (.ptr _ t) => some t
      | _ => none
  | .member s m =>
      match typeOf s with
      | some (.base c Base.WiFiCredential) => some ((memberType m).withConst c)
      | _ => none
  | .deref p =>
      match typeOf p with
      | some (.ptr _ t) => some t
      | some (.arr e _) => some e
      | _ => none

/-- Whether `lv = e` is a well-formed assignment: `lv` must be a well-formed, modifiable
lvalue, that is, neither `const` nor an array. -/
def assignable (lv : Lval) : Bool :=
  match typeOf lv with
  | some t => !t.isConst && !t.isArray
  | none => false

/-- The names declared as `const` objects (scalars and arrays). -/
def constObjects : List Ident :=
  [.DEBUG, .wifiCredentials, .numWifiCredentials, .USE_STATIC_IP, .STATIC_IP_BYTES,
   .GATEWAY_BYTES, .SUBNET_BYTES, .PRIMARY_DNS_BYTES, .SECONDARY_DNS_BYTES]

/-- The names declared `const char*`. -/
def stringIdents : List Ident :=
  [.NTP_SERVER, .MAC_DESKTOP, .MAC_SERVER, .GAS_URL, .GAS_URL_WOL, .SWITCHBOT_TOKEN,
   .SWITCHBOT_SECRET, .DEVICE_ID_LIGHT, .DEVICE_ID_TV, .DEVICE_ID_AC, .DEVICE_ID_FAN,
   .DEVICE_ID_SPEAKER, .DEVICE_ID_OTHERS, .LINE_CHANNEL_ACCESS_TOKEN, .LINE_USER_ID]

/-- The declared name an lvalue expression is built from. -/
def Lval.root : Lval → Ident
  | .var x => x
  | .index a _ => a.root
  | .member s _ => s.root
  | .deref p => p.root

/-- Whether the type is `const` at every level: the object itself and, through pointers
and arrays, everything reachable from it. -/
def CType.deepConst : CType → Bool
  | .base c _ => c
  | .ptr c t => c && t.deepConst
  | .arr e _ => e.deepConst

/-! ## Auxiliary facts -/

/-- The size of an array is a multiple of the size of its element. -/
theorem sizeofArray_mod (s n : Nat) : sizeofArray s n % s = 0 := by
  unfold sizeofArray
  exact Nat.mul_mod_left n s

/-- Dividing the size of an array by the positive size of its element gives back the
number of elements. -/
theorem sizeofArray_div (s n : Nat) (hs : 0 < s) : sizeofArray s n / s = n := by
  unfold sizeofArray
  exact Nat.mul_div_cancel n hs

/-- A value below `2 ^ 15` is unchanged by the conversion to an `int` of at least 16
bits. -/
theorem toInt_of_small (bits x : Nat) (hb : 16 ≤ bits) (hx : x < 2 ^ 15) :
    toInt bits x = (x : Int) := by
  have h15 : 2 ^ 15 ≤ 2 ^ (bits - 1) := Nat.pow_le_pow_right (by decide) (by omega)
  have hle : 2 ^ (bits - 1) ≤ 2 ^ bits := Nat.pow_le_pow_right (by decide) (by omega)
  have hlt : x < 2 ^ bits := by omega
  have hmod : x % 2 ^ bits = x := Nat.mod_eq_of_lt hlt
  have hhalf : x < 2 ^ (bits - 1) := by omega
  simp only [toInt, hmod]
  rw [if_pos hhalf]

/-- The structure has a positive size as soon as a pointer has. -/
theorem sizeofWiFiCredential_pos (ptrBytes : Nat) (hp : 0 < ptrBytes) :
    0 < sizeofWiFiCredential ptrBytes := by
  unfold sizeofWiFiCredential
  omega

/-- The derived count is 3 on every target. -/
theorem numWifiCredentials_eq_three (ptrBytes intBits : Nat) (hp : 0 < ptrBytes)
    (hi : 16 ≤ intBits) : numWifiCredentials ptrBytes intBits = 3 := by
  unfold numWifiCredentials sizeofWifiCredentials
  rw [sizeofArray_div _ _ (sizeofWiFiCredential_pos ptrBytes hp)]
  rw [toInt_of_small intBits _ hi (by decide)]
  rfl

/-- The MAC-text predicate is selective: it rejects the null pointer, the placeholder, a
non-hexadecimal digit, a doubled colon and a missing group. -/
theorem isMacText_rejects :
    isMacText none = false ∧ isMacText (some "-----") = false ∧
    isMacText (some "00:1A:2B:3C:4D:5G") = false ∧
    isMacText (some "00:1A:2B:3C:4D::E") = false ∧
    isMacText (some "00:1A:2B:3C:4D") = false := by
  decide

/-- The assignment rule is selective: a `const char*` name can be re-pointed while the
characters behind it cannot change, and an ill-typed expression is never assignable. -/
theorem assignable_examples :
    assignable (Lval.var Ident.GAS_URL) = true ∧
    assignable (Lval.deref (Lval.var Ident.GAS_URL)) = false ∧
    assignable (Lval.var Ident.DEBUG) = false ∧
    typeOf (Lval.member (Lval.var Ident.DEBUG) Member.ssid) = none ∧
    typeOf (Lval.member (Lval.index (Lval.var Ident.wifiCredentials) 0) Member.ssid)
      = some (CType.ptr true (CType.base true Base.char)) := by
  decide

/-! ## The derived count of WiFi credentials -/

/-- Claim C1: `numWifiCredentials` equals the number of entries of `wifiCredentials`.
The division `sizeof(wifiCredentials) / sizeof(wifiCredentials[0])` is exact: for an array
of `n` entries of size `s > 0` the size `n * s` is a multiple of `s` and `(n * s) / s = n`;
for the array as declared, on a target with pointers of positive size and an `int` of at
least 16 bits, the division leaves no remainder and the constant is the length of the list
of entries. -/
theorem numWifiCredentials_eq_entry_count (ptrBytes intBits : Nat) (hp : 0 < ptrBytes)
    (hi : 16 ≤ intBits) :
    (∀ n s : Nat, 0 < s → sizeofArray s n % s = 0 ∧ sizeofArray s n / s = n) ∧
    sizeofWifiCredentials ptrBytes % sizeofWiFiCredential ptrBytes = 0 ∧
    numWifiCredentials ptrBytes intBits = (wifiCredentials.length : Int) := by
  refine ⟨fun n s hs => ⟨sizeofArray_mod s n, sizeofArray_div s n hs⟩, ?_, ?_⟩
  · exact sizeofArray_mod _ _
  · rw [numWifiCredentials_eq_three ptrBytes intBits hp hi]
    rfl

/-- Witness for C1 on a target with 4-byte pointers and a 32-bit `int`. -/
theorem numWifiCredentials_eq_entry_count_witness :
    (0 < 4 ∧ 16 ≤ 32) ∧
    ((∀ n s : Nat, 0 < s → sizeofArray s n % s = 0 ∧ sizeofArray s n / s = n) ∧
     sizeofWifiCredentials 4 % sizeofWiFiCredential 4 = 0 ∧
     numWifiCredentials 4 32 = (wifiCredentials.length : Int)) :=
  ⟨by decide, numWifiCredentials_eq_entry_count 4 32 (by decide) (by decide)⟩

/-- Claim C6: the number of WiFi credential entries is bounded by 3: `wifiCredentials` has
at most 3 entries (as declared, exactly 3), and `numWifiCredentials` is at least 1 and at
most 3. -/
theorem wifiCredentials_count_bounded (ptrBytes intBits : Nat) (hp : 0 < ptrBytes)
    (hi : 16 ≤ intBits) :
    wifiCredentials.length ≤ 3 ∧ wifiCredentials.length = 3 ∧
    1 ≤ numWifiCredentials ptrBytes intBits ∧ numWifiCredentials ptrBytes intBits ≤ 3 := by
  rw [numWifiCredentials_eq_three ptrBytes intBits hp hi]
  refine ⟨by decide, by decide, by decide, by decide⟩

/-- Witness for C6 on a target with 2-byte pointers and a 16-bit `int`. -/
theorem wifiCredentials_count_bounded_witness :
    (0 < 2 ∧ 16 ≤ 16) ∧
    (wifiCredentials.length ≤ 3 ∧ wifiCredentials.length = 3 ∧
     1 ≤ numWifiCredentials 2 16 ∧ numWifiCredentials 2 16 ≤ 3) :=
  ⟨by decide, wifiCredentials_count_bounded 2 16 (by decide) (by decide)⟩

/-! ## The static-IP block -/

/-- Claim C2: each of the five byte-array constants `STATIC_IP_BYTES`, `GATEWAY_BYTES`,
`SUBNET_BYTES`, `PRIMARY_DNS_BYTES` and `SECONDARY_DNS_BYTES` has exactly 4 elements. -/
theorem address_arrays_have_four_elements :
    STATIC_IP_BYTES.length = 4 ∧ GATEWAY_BYTES.length = 4 ∧ SUBNET_BYTES.length = 4 ∧
    PRIMARY_DNS_BYTES.length = 4 ∧ SECONDARY_DNS_BYTES.length = 4 := by
  decide

/-- Claim C7: static addressing is never enabled together with placeholder addresses: if
any of the five address arrays is the all-zero sequence `0.0.0.0`, then `USE_STATIC_IP` is
false. -/
theorem static_ip_disabled_when_address_unset
    (h : STATIC_IP_BYTES = zeroAddress ∨ GATEWAY_BYTES = zeroAddress ∨
      SUBNET_BYTES = zeroAddress ∨ PRIMARY_DNS_BYTES = zeroAddress ∨
      SECONDARY_DNS_BYTES = zeroAddress) :
    USE_STATIC_IP = false := by
  rcases h with _ | _ | _ | _ | _ <;> rfl

/-- Witness for C7: the declared `STATIC_IP_BYTES` is `0.0.0.0`, and static addressing is
off. -/
theorem static_ip_disabled_when_address_unset_witness :
    STATIC_IP_BYTES = zeroAddress ∧ USE_STATIC_IP = false :=
  ⟨rfl, static_ip_disabled_when_address_unset (Or.inl rfl)⟩

/-! ## The string constants -/

/-- Claim C3: all declared string constants are non-null: `NTP_SERVER`, `MAC_DESKTOP`,
`MAC_SERVER`, the twelve service strings (`GAS_URL`, `GAS_URL_WOL`, `SWITCHBOT_TOKEN`,
`SWITCHBOT_SECRET`, the six `DEVICE_ID_*`, `LINE_CHANNEL_ACCESS_TOKEN`, `LINE_USER_ID`)
each hold a string, and so do the `ssid` and `password` of every entry of
`wifiCredentials`. -/
theorem string_constants_non_null :
    (∃ s, NTP_SERVER = some s) ∧ (∃ s, MAC_DESKTOP = some s) ∧ (∃ s, MAC_SERVER = some s) ∧
    (∀ p ∈ serviceStrings, ∃ s, p = some s) ∧
    (∀ c ∈ wifiCredentials, (∃ s, c.ssid = some s) ∧ (∃ s, c.password = some s)) := by
  refine ⟨⟨_, rfl⟩, ⟨_, rfl⟩, ⟨_, rfl⟩, ?_, ?_⟩
  · intro p hp
    have h : p.isSome = true := by revert p; decide
    exact Option.isSome_iff_exists.mp h
  · intro c hc
    have h : c.ssid.isSome = true ∧ c.password.isSome = true := by revert c; decide
    exact ⟨Option.isSome_iff_exists.mp h.1, Option.isSome_iff_exists.mp h.2⟩

/-- Claim C5: `MAC_DESKTOP` and `MAC_SERVER` are each a textual MAC address in the
documented form `"00:1A:2B:3C:4D:5E"` (which itself has that form): exactly 17 characters,
six groups of two hexadecimal digits separated by single colons. -/
theorem mac_constants_well_formed :
    (∃ s, MAC_DESKTOP = some s ∧ s.length = 17 ∧ hexGroups 6 s.toList = true) ∧
    (∃ s, MAC_SERVER = some s ∧ s.length = 17 ∧ hexGroups 6 s.toList = true) ∧
    isMacText MAC_DESKTOP = true ∧ isMacText MAC_SERVER = true ∧
    isMacText (some "00:1A:2B:3C:4D:5E") = true := by
  refine ⟨⟨_, rfl, by decide, by decide⟩, ⟨_, rfl, by decide, by decide⟩, ?_, ?_, ?_⟩ <;>
    decide

/-- Claim C8: no real secret is compiled into the header: each of the twelve credential,
token, ID and URL strings, and the `ssid` and `password` of every entry of
`wifiCredentials`, equals the placeholder `"-----"`. -/
theorem secrets_are_placeholders :
    GAS_URL = some "-----" ∧ GAS_URL_WOL = some "-----" ∧
    SWITCHBOT_TOKEN = some "-----" ∧ SWITCHBOT_SECRET = some "-----" ∧
    DEVICE_ID_LIGHT = some "-----" ∧ DEVICE_ID_TV = some "-----" ∧
    DEVICE_ID_AC = some "-----" ∧ DEVICE_ID_FAN = some "-----" ∧
    DEVICE_ID_SPEAKER = some "-----" ∧ DEVICE_ID_OTHERS = some "-----" ∧
    LINE_CHANNEL_ACCESS_TOKEN = some "-----" ∧ LINE_USER_ID = some "-----" ∧
    (∀ c ∈ wifiCredentials, c.ssid = some "-----" ∧ c.password = some "-----") := by
  refine ⟨rfl, rfl, rfl, rfl, rfl, rfl, rfl, rfl, rfl, rfl, rfl, rfl, ?_⟩
  decide

/-! ## Immutability of the declared names -/

/-- Every declared name is either one of the `const` objects or one of the `const char*`
names. -/
theorem ident_cases (x : Ident) : x ∈ constObjects ∨ x ∈ stringIdents := by
  cases x <;> decide

/-- A type that is `const` at every level is `const`. -/
theorem isConst_of_deepConst (t : CType) (h : t.deepConst = true) : t.isConst = true := by
  induction t with
  | base c b => simpa [CType.deepConst, CType.isConst] using h
  | ptr c t _ =>
      simp only [CType.deepConst, Bool.and_eq_true] at h
      simpa [CType.isConst] using h.1
  | arr e n ih =>
      simp only [CType.deepConst] at h
      simpa [CType.isConst] using ih h

/-- The type of a cast-free lvalue expression is `const` at every level, unless the
expression is one of the `const char*` names itself, whose type is `const char*`. -/
theorem typeOf_deepConst_or_string (lv : Lval) (t : CType) (h : typeOf lv = some t) :
    t.deepConst = true ∨ (∃ x ∈ stringIdents, lv = Lval.var x ∧ t = constCharPtr) := by
  induction lv generalizing t with
  | var x =>
      simp only [typeOf, Option.some.injEq] at h
      subst h
      cases x <;> first
        | (left; rfl)
        | (right; exact ⟨_, by decide, rfl, rfl⟩)
  | index a i ih =>
      left
      simp only [typeOf] at h
      cases hta : typeOf a with
      | none => simp [hta] at h
      | some ta =>
          rw [hta] at h
          rcases ih ta hta with hd | ⟨x, _, _, hx⟩
          · cases ta with
            | base c b => simp at h
            | ptr c u =>
                simp only [Option.some.injEq] at h
                subst h
                simp only [CType.deepConst, Bool.and_eq_true] at hd
                exact hd.2
            | arr e n =>
                simp only [Option.some.injEq] at h
                subst h
                simpa [CType.deepConst] using hd
          · subst hx
            simp only [constCharPtr, Option.some.injEq] at h
            subst h
            rfl
  | member s m ih =>
      left
      simp only [typeOf] at h
      cases hts : typeOf s with
      | none => simp [hts] at h
      | some ts =>
          rw [hts] at h
          rcases ih ts hts with hd | ⟨x, _, _, hx⟩
          · cases ts with
            | base c b =>
                cases b <;> simp at h
                subst h
                simp only [CType.deepConst] at hd
                subst hd
                cases m <;> rfl
            | ptr c u => simp at h
            | arr e n => simp at h
          · subst hx
            simp [constCharPtr] at h
  | deref q ih =>
      left
      simp only [typeOf] at h
      cases htq : typeOf q with
      | none => simp [htq] at h
      | some tq =>
          rw [htq] at h
          rcases ih tq htq with hd | ⟨x, _, _, hx⟩
          · cases tq with
            | base c b => simp at h
            | ptr c u =>
                simp only [Option.some.injEq] at h
                subst h
                simp only [CType.deepConst, Bool.and_eq_true] at hd
                exact hd.2
            | arr e n =>
                simp only [Option.some.injEq] at h
                subst h
                simpa [CType.deepConst] using hd
          · subst hx
            simp only [constCharPtr, Option.some.injEq] at h
            subst h
            rfl

/-- The only cast-free lvalue expressions that can be assigned to are the `const char*`
names themselves. -/
theorem assignable_only_string_names (lv : Lval) (h : assignable lv = true) :
    ∃ x ∈ stringIdents, lv = Lval.var x := by
  unfold assignable at h
  cases ht : typeOf lv with
  | none => simp [ht] at h
  | some t =>
      rw [ht] at h
      simp only [Bool.and_eq_true, Bool.not_eq_true'] at h
      rcases typeOf_deepConst_or_string lv t ht with hd | ⟨x, hx, hlv, _⟩
      · have hc := isConst_of_deepConst t hd
        rw [hc] at h
        exact absurd h.1 (by decide)
      · exact ⟨x, hx, hlv⟩

/-- No list of names holds a name of the other kind. -/
theorem constObjects_not_string (x : Ident) (hx : x ∈ constObjects) : x ∉ stringIdents := by
  revert x
  decide

/-- Counterexample to C4 as stated: `NTP_SERVER` is declared `const char*`, a pointer that
is not itself `const`, so an assignment to the name `NTP_SERVER` is well-formed; hence not
every declared name is protected against being given a different value. -/
theorem ntp_server_pointer_assignable :
    declaredType Ident.NTP_SERVER = CType.ptr false (CType.base true Base.char) ∧
    assignable (Lval.var Ident.NTP_SERVER) = true ∧
    ¬ (∀ x : Ident, assignable (Lval.var x) = false) := by
  refine ⟨rfl, rfl, ?_⟩
  intro h
  exact absurd (h Ident.NTP_SERVER) (by decide)

/-- Claim C4, amended: every name the header declares is `const`-qualified in its
declaration: `DEBUG`, `wifiCredentials`, `numWifiCredentials`, `USE_STATIC_IP` and the five
byte arrays are `const` objects, every other name is a `const char*`, a pointer to `const`
characters.  Among the cast-free lvalue expressions built from the declared names by
subscript, member access and dereference, the only ones that can be assigned to are
`const char*` names themselves.  Hence no such expression built from a `const` object (the
object, an element, an entry of `wifiCredentials`, its `ssid` or `password`) can be
assigned to, and no such expression other than a bare name can: the elements of the byte
arrays, the `ssid` and `password` of the entries and the characters behind every string are
well-typed `const` lvalues. -/
theorem declared_constants_const_qualified :
    (∀ x : Ident, (declaredType x).isConst = true ∨ declaredType x = constCharPtr) ∧
    (∀ x ∈ constObjects, (declaredType x).isConst = true) ∧
    (∀ x ∈ stringIdents, declaredType x = constCharPtr) ∧
    (∀ lv : Lval, assignable lv = true → ∃ x ∈ stringIdents, lv = Lval.var x) ∧
    (∀ lv : Lval, lv.root ∈ constObjects → assignable lv = false) ∧
    (∀ lv : Lval, (∀ x, lv ≠ Lval.var x) → assignable lv = false) ∧
    (∀ i, typeOf (Lval.index (Lval.var Ident.STATIC_IP_BYTES) i)
        = some (CType.base true Base.byte) ∧
      typeOf (Lval.index (Lval.var Ident.GATEWAY_BYTES) i)
        = some (CType.base true Base.byte) ∧
      typeOf (Lval.index (Lval.var Ident.SUBNET_BYTES) i)
        = some (CType.base true Base.byte) ∧
      typeOf (Lval.index (Lval.var Ident.PRIMARY_DNS_BYTES) i)
        = some (CType.base true Base.byte) ∧
      typeOf (Lval.index (Lval.var Ident.SECONDARY_DNS_BYTES) i)
        = some (CType.base true Base.byte)) ∧
    (∀ i m, typeOf (Lval.member (Lval.index (Lval.var Ident.wifiCredentials) i) m)
        = some (CType.ptr true (CType.base true Base.char)) ∧
      typeOf (Lval.deref (Lval.member (Lval.index (Lval.var Ident.wifiCredentials) i) m))
        = some (CType.base true Base.char)) ∧
    (∀ x ∈ stringIdents, ∀ i,
      typeOf (Lval.deref (Lval.var x)) = some (CType.base true Base.char) ∧
      typeOf (Lval.index (Lval.var x) i) = some (CType.base true Base.char)) := by
  refine ⟨?_, ?_, ?_, assignable_only_string_names, ?_, ?_, ?_, ?_, ?_⟩
  · intro x
    cases x <;> decide
  · decide
  · decide
  · intro lv hroot
    cases hlv : assignable lv with
    | false => rfl
    | true =>
        obtain ⟨x, hx, rfl⟩ := assignable_only_string_names lv hlv
        exact absurd hx (constObjects_not_string x hroot)
  · intro lv hne
    cases hlv : assignable lv with
    | false => rfl
    | true =>
        obtain ⟨x, _, hx⟩ := assignable_only_string_names lv hlv
        exact absurd hx (hne x)
  · intro i
    exact ⟨rfl, rfl, rfl, rfl, rfl⟩
  · intro i m
    cases m <;> exact ⟨rfl, rfl⟩
  · intro x hx i
    have h : declaredType x = constCharPtr := by revert x; decide
    simp [typeOf, h, constCharPtr]

end Thunder
